import Mathlib

/-
  Verification of the MCP simple-tool server
  (src/examples/servers/simple-tool/mcp_simple_tool/server.py).

  The core under scrutiny is the pure dispatch logic of the server:
  the tool-call handler `handle_tool_call`, the catalog function
  `list_tools`, and the two fetch helpers `fetch_website` and
  `fetch_website_via_ssl`.  The network is embedded as an environment
  mapping (client instance, requested url) to the HTTP response that a
  GET through that client would obtain; every function that performs a
  fetch also reports the list of outbound GET requests it issued, so
  that properties about when a network action happens are statable.
-/

namespace McpSimpleTool

/-- JSON values, as carried in the dynamic "arguments" bag of a
tool-call request and in the inputSchema dictionaries of the catalog. -/
inductive Json where
  | null : Json
  | bool (b : Bool) : Json
  | num (n : Int) : Json
  | str (s : String) : Json
  | arr (elems : List Json) : Json
  | obj (fields : List (String × Json)) : Json
deriving Repr

/-- An HTTP response as observed through the httpx client: a numeric
status code and the body decoded as text (httpx response.text). -/
structure HttpResponse where
  status : Nat
  text : String
deriving Repr, DecidableEq

/-- Which httpx client instance issues a request.  The source builds
two distinct clients with identical headers: `create_mcp_http_client`
(used by fetch_website) and a directly constructed `httpx.AsyncClient`
(used by fetch_website_via_ssl). -/
inductive ClientKind where
  | mcpDefault : ClientKind
  | explicitSsl : ClientKind
deriving Repr, DecidableEq

/-- The network environment: the response that a GET issued by a given
client instance to a given url value obtains.  The url is a Json value
because Python does not enforce the str annotation on the helpers:
handle_tool_call passes arguments["url"] through unchecked.  Totality
over Json urls is a modelling idealization: for a non-string url the
real httpx client raises TypeError while constructing the URL, before
any request is issued, so an environment value at a non-string url is
unrealizable and theorems that consume a response are only instantiated
at string urls. -/
def Env : Type := ClientKind → Json → HttpResponse

/-- One outbound GET request, as observable by an operator: which
client instance issued it, to which url, with which headers. -/
structure IssuedRequest where
  client : ClientKind
  url : Json
  headers : List (String × String)
deriving Repr

/-- The typed failures the handler and helpers can produce.
unknownTool and missingArgument embed the two ValueError raises of
handle_tool_call (lines 106 and 110 of server.py); upstreamHTTPError
embeds the httpx.HTTPStatusError raised by response.raise_for_status,
carrying the upstream status code. -/
inductive ToolError where
  | unknownTool (name : String) : ToolError
  | missingArgument (arg : String) : ToolError
  | upstreamHTTPError (status : Nat) : ToolError
deriving Repr, DecidableEq

/-- One unit of tool-call result content.  The only variant this server
produces is plain text (types.TextContent with type="text"). -/
inductive ContentBlock where
  | text (text : String) : ContentBlock
deriving Repr, DecidableEq

/-- The fixed identifying header both fetch helpers set on their client
(server.py lines 26-28 and 53-55). -/
def userAgentHeader : List (String × String) :=
  [("User-Agent", "MCP Test Server (github.com/modelcontextprotocol/python-sdk)")]

/-- httpx response.is_success: status code in the 2xx success class. -/
def is_success (r : HttpResponse) : Bool :=
  200 ≤ r.status && r.status ≤ 299

/-- httpx response.raise_for_status(): raises HTTPStatusError exactly
when the response status is not in the success class, otherwise
returns normally. -/
def raise_for_status (r : HttpResponse) : Except ToolError Unit :=
  if is_success r then .ok () else .error (.upstreamHTTPError r.status)

/-- server.py lines 13-36, fetch_website: builds a client via
create_mcp_http_client with the User-Agent header, performs one GET to
the url, raises for an error status, and otherwise returns one
TextContent block holding response.text.  The second component records
the outbound requests issued. -/
def fetch_website (env : Env) (url : Json) :
    Except ToolError (List ContentBlock) × List IssuedRequest :=
  let response := env .mcpDefault url
  let issued : List IssuedRequest := [⟨.mcpDefault, url, userAgentHeader⟩]
  match raise_for_status response with
  | .error e => (.error e, issued)
  | .ok _ => (.ok [ContentBlock.text response.text], issued)

/-- server.py lines 40-63, fetch_website_via_ssl: identical body to
fetch_website except that the GET is issued through a directly
constructed httpx.AsyncClient with the same User-Agent header. -/
def fetch_website_via_ssl (env : Env) (url : Json) :
    Except ToolError (List ContentBlock) × List IssuedRequest :=
  let response := env .explicitSsl url
  let issued : List IssuedRequest := [⟨.explicitSsl, url, userAgentHeader⟩]
  match raise_for_status response with
  | .error e => (.error e, issued)
  | .ok _ => (.ok [ContentBlock.text response.text], issued)

/-- server.py lines 90-116, handle_tool_call: rejects a name outside
the registry set with ValueError (Unknown tool), then rejects an
argument bag whose keys do not include "url" with ValueError (Missing
required argument), then dispatches to the fetch helper selected by
name, passing arguments["url"].  The argument bag is a key-value list
with unique keys (a Python dict); key lookup embeds dict membership
and subscription. -/
def handle_tool_call (env : Env) (name : String)
    (arguments : List (String × Json)) :
    Except ToolError (List ContentBlock) × List IssuedRequest :=
  if ¬ (name = "fetch" ∨ name = "fetch_web_content_via_ssl") then
    (.error (.unknownTool name), [])
  else if (arguments.lookup "url").isNone then
    (.error (.missingArgument "url"), [])
  else
    let url := (arguments.lookup "url").getD .null
    if name = "fetch" then
      fetch_website env url
    else
      fetch_website_via_ssl env url

/-- A tool descriptor as constructed by types.Tool in list_tools. -/
structure Tool where
  name : String
  title : String
  description : String
  inputSchema : Json
deriving Repr

/-- server.py lines 119-155, list_tools: the fixed catalog of the two
tool descriptors, in source order, with their literal schemas. -/
def list_tools : List Tool :=
  [ { name := "fetch",
      title := "Website Fetcher",
      description := "Fetches a website and returns its content",
      inputSchema := .obj [
        ("type", .str "object"),
        ("required", .arr [.str "url"]),
        ("properties", .obj [
          ("url", .obj [
            ("type", .str "string"),
            ("description", .str "URL to fetch")])])] },
    { name := "fetch_web_content_via_ssl",
      title := "Website Fetcher via SSL",
      description := "Fetches a website and returns its content using a secure SSL connection",
      inputSchema := .obj [
        ("type", .str "object"),
        ("required", .arr [.str "url"]),
        ("properties", .obj [
          ("url", .obj [
            ("type", .str "string"),
            ("description", .str "URL to fetch over SSL")])])] } ]

/-- Field lookup in a Json object; none on non-objects. -/
def Json.getField : Json → String → Option Json
  | .obj fields, key => fields.lookup key
  | _, _ => none

/-- Whether a Json value is the string s. -/
def Json.isStr : Json → String → Bool
  | .str t, s => t = s
  | _, _ => false

/-- Decides whether a schema is of type object and lists "url" as a
required property of type string. -/
def requiresStringUrl (schema : Json) : Bool :=
  (match schema.getField "type" with
   | some t => t.isStr "object"
   | none => false)
  && (match schema.getField "required" with
      | some (.arr xs) => xs.any (fun j => j.isStr "url")
      | _ => false)
  && (match schema.getField "properties" with
      | some props =>
        (match props.getField "url" with
         | some u =>
           (match u.getField "type" with
            | some t => t.isStr "string"
            | none => false)
         | none => false)
      | none => false)

/-- The httpx client instance a given valid tool name routes through. -/
def clientOf (name : String) : ClientKind :=
  if name = "fetch" then .mcpDefault else .explicitSsl

/-- A request a peer can issue while the session is initialized. -/
inductive Request where
  | toolListing : Request
  | callTool (name : String) (arguments : List (String × Json)) : Request

/-- A response written back to the peer for one request. -/
inductive Response where
  | toolList (tools : List Tool) : Response
  | success (blocks : List ContentBlock) : Response
  | requestError (e : ToolError) : Response
deriving Repr

/-- Modelled from the spec: the per-session request dispatch of the MCP
low-level Server (app.run from mcp.server.lowlevel, a library whose
code is not under src/).  Spec sections 4.4 and 7: while initialized
the loop serves list-tools requests from the registry and dispatches
call-tool requests to the handler; UnknownTool, MissingArgument and
UpstreamHTTPError are request-level errors, converted into a structured
error response returned to the peer without closing the session. -/
def serveRequest (env : Env) : Request → Response
  | .toolListing => .toolList list_tools
  | .callTool name args =>
    match (handle_tool_call env name args).fst with
    | .ok blocks => .success blocks
    | .error e => .requestError e

/-- Modelled from the spec: the session loop serves requests one at a
time, in order, until the inbound stream ends; every request receives
exactly one response and request-level errors leave the session state
untouched (spec sections 4.4 and 7). -/
def runSession (env : Env) : List Request → List Response
  | [] => []
  | r :: rs => serveRequest env r :: runSession env rs

/-- A network environment in which every GET succeeds with status 200
and body "hello"; used to instantiate hypotheses at concrete inputs. -/
def helloEnv : Env := fun _ _ => { status := 200, text := "hello" }

/-- A network environment in which every GET yields status 404. -/
def notFoundEnv : Env := fun _ _ => { status := 404, text := "not found" }

/-- Claim C1: for every tool name outside the registry name set and
every argument bag, the handler produces the UnknownTool error
(the ValueError naming the unknown tool), and the session remains
usable: the offending call-tool request is answered with a structured
error response and every subsequent request is served exactly as it
would have been on its own. -/
theorem unknown_name_yields_unknownTool
    (env : Env) (name : String) (args : List (String × Json))
    (rest : List Request)
    (h : ¬ (name = "fetch" ∨ name = "fetch_web_content_via_ssl")) :
    (handle_tool_call env name args).fst = .error (.unknownTool name)
    ∧ runSession env (.callTool name args :: rest)
      = .requestError (.unknownTool name) :: runSession env rest := by
  constructor
  · simp [handle_tool_call, h]
  · simp [runSession, serveRequest, handle_tool_call, h]

/-- Witness for C1 at the concrete name "mystery" with an arbitrary
bag, followed by one more request that is still served. -/
theorem unknown_name_yields_unknownTool_witness :
    (handle_tool_call helloEnv "mystery" [("url", Json.str "u")]).fst
      = .error (.unknownTool "mystery")
    ∧ runSession helloEnv
        (.callTool "mystery" [("url", Json.str "u")] :: [.toolListing])
      = .requestError (.unknownTool "mystery")
        :: runSession helloEnv [.toolListing] :=
  unknown_name_yields_unknownTool helloEnv "mystery" [("url", Json.str "u")]
    [.toolListing] (by decide)

/-- Claim C2: for every valid tool name and every argument bag whose
keys do not include "url", the handler produces the MissingArgument
error, whichever of the two valid names was given. -/
theorem missing_url_yields_missingArgument
    (env : Env) (name : String) (args : List (String × Json))
    (hname : name = "fetch" ∨ name = "fetch_web_content_via_ssl")
    (hurl : args.lookup "url" = none) :
    (handle_tool_call env name args).fst = .error (.missingArgument "url") := by
  rcases hname with h | h <;> subst h <;> simp [handle_tool_call, hurl]

/-- Witness for C2: the empty bag under both valid names. -/
theorem missing_url_yields_missingArgument_witness :
    (handle_tool_call helloEnv "fetch" []).fst
      = .error (.missingArgument "url")
    ∧ (handle_tool_call helloEnv "fetch_web_content_via_ssl"
        [("uri", Json.str "u")]).fst
      = .error (.missingArgument "url") :=
  ⟨missing_url_yields_missingArgument helloEnv "fetch" [] (Or.inl rfl) rfl,
   missing_url_yields_missingArgument helloEnv "fetch_web_content_via_ssl"
     [("uri", Json.str "u")] (Or.inr rfl) rfl⟩

/-- Claim C3: the catalog has exactly 2 descriptors, in the fixed
order fetch then fetch_web_content_via_ssl, each with an object
inputSchema listing url as a required string property; and because the
listing function is a constant, every invocation (through the session
loop, under any network environment) returns this same fixed catalog. -/
theorem list_tools_fixed_catalog :
    list_tools.length = 2
    ∧ list_tools.map Tool.name = ["fetch", "fetch_web_content_via_ssl"]
    ∧ list_tools.all (fun t => requiresStringUrl t.inputSchema) = true
    ∧ ∀ (env : Env), serveRequest env .toolListing = .toolList list_tools := by
  exact ⟨rfl, rfl, rfl, fun _ => rfl⟩

/-- Claim C4: for every valid tool name and every bag carrying a url,
when the outbound GET for that tool obtains a success-class (2xx)
response, the call returns exactly one text ContentBlock whose text is
the full response body. -/
theorem success_response_yields_single_text_block
    (env : Env) (name : String) (u : Json) (args : List (String × Json))
    (hname : name = "fetch" ∨ name = "fetch_web_content_via_ssl")
    (hurl : args.lookup "url" = some u)
    (hs : is_success (env (clientOf name) u) = true) :
    (handle_tool_call env name args).fst
      = .ok [ContentBlock.text (env (clientOf name) u).text] := by
  rcases hname with h | h <;> subst h <;>
    simp only [clientOf, if_true, if_pos rfl, String.reduceEq, if_false] at hs ⊢ <;>
    simp [handle_tool_call, hurl, fetch_website, fetch_website_via_ssl,
      raise_for_status, hs]

/-- Witness for C4: a 200 response with body "hello" yields the single
text block "hello". -/
theorem success_response_yields_single_text_block_witness :
    (handle_tool_call helloEnv "fetch"
        [("url", Json.str "http://example.com")]).fst
      = .ok [ContentBlock.text "hello"] :=
  success_response_yields_single_text_block helloEnv "fetch"
    (Json.str "http://example.com") [("url", Json.str "http://example.com")]
    (Or.inl rfl) rfl rfl

/-- Claim C5: for every valid tool name and bag carrying a url, when
the outbound GET obtains a client-error or server-error (4xx or 5xx)
response, the call fails with UpstreamHTTPError carrying that status,
and the session is not closed: the request is answered with a
structured error response and subsequent requests are served as on
their own. -/
theorem error_status_yields_upstreamHTTPError
    (env : Env) (name : String) (u : Json) (args : List (String × Json))
    (rest : List Request)
    (hname : name = "fetch" ∨ name = "fetch_web_content_via_ssl")
    (hurl : args.lookup "url" = some u)
    (hlo : 400 ≤ (env (clientOf name) u).status)
    (hhi : (env (clientOf name) u).status ≤ 599) :
    (handle_tool_call env name args).fst
      = .error (.upstreamHTTPError (env (clientOf name) u).status)
    ∧ runSession env (.callTool name args :: rest)
      = .requestError (.upstreamHTTPError (env (clientOf name) u).status)
        :: runSession env rest := by
  have hns : is_success (env (clientOf name) u) = false := by
    simp only [is_success, Bool.and_eq_false_iff, decide_eq_false_iff_not, not_le]
    omega
  have hfst : (handle_tool_call env name args).fst
      = .error (.upstreamHTTPError (env (clientOf name) u).status) := by
    rcases hname with h | h <;> subst h <;>
      simp [clientOf] at hns <;>
      simp [handle_tool_call, hurl, clientOf, fetch_website,
        fetch_website_via_ssl, raise_for_status, hns]
  refine ⟨hfst, ?_⟩
  simp [runSession, serveRequest, hfst]

/-- Witness for C5: a 404 response yields UpstreamHTTPError 404 and
the following list-tools request is still served. -/
theorem error_status_yields_upstreamHTTPError_witness :
    (handle_tool_call notFoundEnv "fetch" [("url", Json.str "u")]).fst
      = .error (.upstreamHTTPError 404)
    ∧ runSession notFoundEnv
        (.callTool "fetch" [("url", Json.str "u")] :: [.toolListing])
      = .requestError (.upstreamHTTPError 404)
        :: runSession notFoundEnv [.toolListing] :=
  error_status_yields_upstreamHTTPError notFoundEnv "fetch" (Json.str "u")
    [("url", Json.str "u")] [.toolListing] (Or.inl rfl) rfl
    (by decide) (by decide)

/-- Claim C6: the two fetch helpers are behaviorally identical except
for which client instance issues the request: each issues exactly one
GET to the given url with the same fixed User-Agent header (differing
only in the client tag), and whenever the network answers both client
instances identically the two helpers return identical results. -/
theorem fetch_helpers_behaviorally_identical
    (env env2 : Env) (u : Json)
    (h : env .mcpDefault u = env2 .explicitSsl u) :
    (fetch_website env u).fst = (fetch_website_via_ssl env2 u).fst
    ∧ (fetch_website env u).snd
      = [{ client := .mcpDefault, url := u, headers := userAgentHeader }]
    ∧ (fetch_website_via_ssl env2 u).snd
      = [{ client := .explicitSsl, url := u, headers := userAgentHeader }] := by
  refine ⟨?_, ?_, ?_⟩
  · rcases hr : raise_for_status (env2 .explicitSsl u) with e | a <;>
      simp [fetch_website, fetch_website_via_ssl, h, hr]
  · rcases hr : raise_for_status (env .mcpDefault u) with e | a <;>
      simp [fetch_website, hr]
  · rcases hr : raise_for_status (env2 .explicitSsl u) with e | a <;>
      simp [fetch_website_via_ssl, hr]

/-- Witness for C6 at a network treating both clients alike. -/
theorem fetch_helpers_behaviorally_identical_witness :
    (fetch_website helloEnv (Json.str "u")).fst
      = (fetch_website_via_ssl helloEnv (Json.str "u")).fst
    ∧ (fetch_website helloEnv (Json.str "u")).snd
      = [{ client := .mcpDefault, url := Json.str "u",
           headers := userAgentHeader }]
    ∧ (fetch_website_via_ssl helloEnv (Json.str "u")).snd
      = [{ client := .explicitSsl, url := Json.str "u",
           headers := userAgentHeader }] :=
  fetch_helpers_behaviorally_identical helloEnv helloEnv (Json.str "u") rfl

/-- Counterexample to claim C7 as stated: the handler does not reject
an invalid (non-string) url value at its validation boundary.  With
the bag mapping "url" to the number 42, both guards pass and control
reaches the fetch path, so the result is never the MissingArgument or
UnknownTool rejection the claim requires — in the running program the
eventual failure is a TypeError raised client-side inside httpx, after
validation has already accepted the bag, not a schema rejection at the
boundary. -/
theorem nonstring_url_passes_validation :
    (handle_tool_call helloEnv "fetch" [("url", Json.num 42)]).fst
        ≠ .error (.missingArgument "url")
    ∧ (handle_tool_call helloEnv "fetch" [("url", Json.num 42)]).fst
        ≠ .error (.unknownTool "fetch") := by
  have h : (handle_tool_call helloEnv "fetch" [("url", Json.num 42)]).fst
      = .ok [ContentBlock.text "hello"] := rfl
  constructor <;> rw [h] <;> intro hc <;> cases hc

/-- Claim C7 as amended: the handler validates only the presence of
the "url" key (its type is not checked) before any network action, and
on every request-level validation error — UnknownTool or
MissingArgument — no outbound HTTP request is issued. -/
theorem request_level_error_issues_no_request
    (env : Env) (name : String) (args : List (String × Json))
    (n a : String)
    (h : (handle_tool_call env name args).fst = .error (.unknownTool n)
       ∨ (handle_tool_call env name args).fst = .error (.missingArgument a)) :
    (handle_tool_call env name args).snd = [] := by
  by_cases h1 : name = "fetch" ∨ name = "fetch_web_content_via_ssl"
  · by_cases h2 : (args.lookup "url").isNone
    · simp [handle_tool_call, h1, h2]
    · exfalso
      rcases h1 with h1 | h1 <;> subst h1 <;>
        simp only [handle_tool_call, h2, or_true, true_or, not_true_eq_false,
          if_false, if_pos rfl, String.reduceEq, Bool.false_eq_true,
          fetch_website, fetch_website_via_ssl, raise_for_status] at h <;>
        rcases hs : is_success (env ClientKind.mcpDefault
            ((args.lookup "url").getD .null)) with _ | _ <;>
        rcases hs2 : is_success (env ClientKind.explicitSsl
            ((args.lookup "url").getD .null)) with _ | _ <;>
        simp [hs, hs2] at h
  · simp [handle_tool_call, h1]

/-- Witness for the amended C7 at a concrete unknown-tool error. -/
theorem request_level_error_issues_no_request_witness :
    (handle_tool_call helloEnv "mystery" [("url", Json.str "u")]).snd = [] :=
  request_level_error_issues_no_request helloEnv "mystery"
    [("url", Json.str "u")] "mystery" "url" (Or.inl rfl)

/-- Claim C9: the unknown-tool check has priority over the
missing-argument check: an invalid name yields UnknownTool and never
MissingArgument, even when the bag lacks "url" or is empty. -/
theorem unknown_tool_check_has_priority
    (env : Env) (name : String) (args : List (String × Json))
    (h : ¬ (name = "fetch" ∨ name = "fetch_web_content_via_ssl")) :
    (handle_tool_call env name args).fst = .error (.unknownTool name)
    ∧ ∀ a, (handle_tool_call env name args).fst
        ≠ .error (.missingArgument a) := by
  have hc : (handle_tool_call env name args).fst
      = .error (.unknownTool name) := by
    simp [handle_tool_call, h]
  refine ⟨hc, fun a hcontra => ?_⟩
  rw [hc] at hcontra
  simp at hcontra

/-- Witness for C9 at an unknown name with the empty bag (which also
lacks "url"). -/
theorem unknown_tool_check_has_priority_witness :
    (handle_tool_call helloEnv "mystery" []).fst
      = .error (.unknownTool "mystery")
    ∧ ∀ a, (handle_tool_call helloEnv "mystery" []).fst
        ≠ .error (.missingArgument a) :=
  unknown_tool_check_has_priority helloEnv "mystery" [] (by decide)

/-- Claim C10: for a valid tool name the handler reads only the "url"
key of the bag: any two bags agreeing on "url" produce the identical
outcome — same result and same issued requests; extra keys are ignored
and never checked. -/
theorem handler_reads_only_url_key
    (env : Env) (name : String) (args1 args2 : List (String × Json))
    (v : Json)
    (hname : name = "fetch" ∨ name = "fetch_web_content_via_ssl")
    (h1 : args1.lookup "url" = some v)
    (h2 : args2.lookup "url" = some v) :
    handle_tool_call env name args1 = handle_tool_call env name args2 := by
  rcases hname with h | h <;> subst h <;>
    simp [handle_tool_call, h1, h2]

/-- Witness for C10: a bag with an extra, never-validated key behaves
exactly like the plain one. -/
theorem handler_reads_only_url_key_witness :
    handle_tool_call helloEnv "fetch" [("url", Json.str "u")]
      = handle_tool_call helloEnv "fetch"
          [("extra", Json.null), ("url", Json.str "u")] :=
  handler_reads_only_url_key helloEnv "fetch" [("url", Json.str "u")]
    [("extra", Json.null), ("url", Json.str "u")] (Json.str "u")
    (Or.inl rfl) rfl rfl

end McpSimpleTool
